import Mathlib

/-!
Verification of `src/utils/count_tokens.py`, a command-line utility that
reads a file and reports the token count assigned to its contents by the
external tiktoken tokenizer.  The script is embedded shallowly: the
filesystem is a map from paths to read outcomes, the external tokenizer is
a parameter, printed output and the exit status are returned explicitly.
-/

namespace CountTokens

/-- A Python exception as it matters to this script: `FileNotFoundError`,
or any other exception carrying its `str(e)` message (decoding errors,
permission errors, tokenizer errors). -/
inductive PyError
  | fileNotFound
  | other (msg : String)
  deriving DecidableEq, Repr

/-- What happens when one invocation opens a path with
`open` in UTF-8 text mode and reads it to the end:
the decoded text when the path names an existing readable UTF-8 file,
`FileNotFoundError` when the path does not exist, or some other error
(permission, decoding) with its message. -/
inductive ReadOutcome
  | content (s : String)
  | notFound
  | otherError (msg : String)
  deriving DecidableEq, Repr

/-- The filesystem as observed by a single invocation: every path has a
fixed read outcome. -/
def FileSystem : Type := String → ReadOutcome

/-- Embedding of `read_file` (count_tokens.py lines 12-15): open the path
as UTF-8 text and return the full content, raising on failure. -/
def read_file (fs : FileSystem) (filepath : String) : Except PyError String :=
  match fs filepath with
  | ReadOutcome.content s => Except.ok s
  | ReadOutcome.notFound => Except.error PyError.fileNotFound
  | ReadOutcome.otherError m => Except.error (PyError.other m)

/-- The external tiktoken library as consumed by the script: its
`encoding_for_model` either returns an encoder mapping text to a list of
token ids or raises (for example `KeyError` on an unknown model
identifier). -/
structure Tokenizer where
  encodingForModel : String → Except PyError (String → List Nat)

/-- Embedding of `count_tokens` (count_tokens.py lines 6-10): obtain the
encoding for model "gpt-5", encode the text, return how many tokens were
produced.  Any exception from the library propagates. -/
def count_tokens (tok : Tokenizer) (text : String) : Except PyError Nat :=
  match tok.encodingForModel "gpt-5" with
  | Except.error e => Except.error e
  | Except.ok enc => Except.ok (enc text).length

/-- Modelled from the spec: one merge pass of a byte-pair tokenizer over a
list of token ids, an unspecified merge-rank table deciding which adjacent
pairs fuse.  The spec treats the vocabulary and merge rules of the
tokenizer as an unspecified external dependency, so the table is a parameter. -/
def bpePass (rank : Nat → Nat → Option Nat) : List Nat → List Nat
  | [] => []
  | [t] => [t]
  | a :: b :: rest =>
    match rank a b with
    | some m => m :: bpePass rank rest
    | none => a :: bpePass rank (b :: rest)

/-- Modelled from the spec: the unspecified external encoder repeatedly merges
adjacent units, starting from the atomic units of the text. -/
def bpeEncode (rank : Nat → Nat → Option Nat) (units : List Nat) : List Nat :=
  (bpePass rank)^[units.length] units

/-- Modelled from the spec: the external tiktoken library, absent from this
repository.  The configured model "gpt-5" resolves to an encoder that
splits the text into atomic units (its characters) and merges them
according to an unspecified rank table; any other model identifier raises. -/
def tiktoken (rank : Nat → Nat → Option Nat) : Tokenizer where
  encodingForModel := fun model =>
    if model = "gpt-5" then
      Except.ok (fun text => bpeEncode rank (text.data.map Char.toNat))
    else
      Except.error (PyError.other ("Could not find encoding for model " ++ model))

/-- Modelled from the spec: a tiktoken installation whose vocabulary does
not know the configured model identifier, so `encoding_for_model` raises
`KeyError` even for "gpt-5". -/
def unknownModelTiktoken : Tokenizer where
  encodingForModel := fun model =>
    Except.error (PyError.other ("Could not find encoding for model " ++ model))

/-- The observable result of one process invocation: the lines printed to
standard output, the process exit status, and whether the process died
from an uncaught exception (whose traceback goes to standard error). -/
structure RunResult where
  output : List String
  exitCode : Nat
  uncaughtException : Bool
  deriving DecidableEq, Repr

/-- Embedding of `main` (count_tokens.py lines 17-34).  `argv` is
`sys.argv`, whose first entry is the script name.  When fewer than two
entries are present the usage line interpolates `sys.argv[1]`, an index
that does not exist, so the `print` raises an uncaught `IndexError`
before writing anything; CPython then terminates the process with status
1 and a traceback on standard error.  Otherwise the script reads the
file, counts its tokens and prints two lines, mapping
`FileNotFoundError` and every other exception to one error line and
status 1. -/
def main (tok : Tokenizer) (fs : FileSystem) (argv : List String) : RunResult :=
  if argv.length < 2 then
    { output := [], exitCode := 1, uncaughtException := true }
  else
    let filepath := argv.getD 1 ""
    match read_file fs filepath with
    | Except.error PyError.fileNotFound =>
        { output := ["Error: File not found at \x27" ++ filepath ++ "\x27"],
          exitCode := 1, uncaughtException := false }
    | Except.error (PyError.other m) =>
        { output := ["An error occurred: " ++ m],
          exitCode := 1, uncaughtException := false }
    | Except.ok file_content =>
        match count_tokens tok file_content with
        | Except.ok num_tokens =>
            { output := ["File: " ++ filepath,
                         "Number of tokens: " ++ toString num_tokens],
              exitCode := 0, uncaughtException := false }
        | Except.error PyError.fileNotFound =>
            { output := ["Error: File not found at \x27" ++ filepath ++ "\x27"],
              exitCode := 1, uncaughtException := false }
        | Except.error (PyError.other m) =>
            { output := ["An error occurred: " ++ m],
              exitCode := 1, uncaughtException := false }

/-- A concrete demonstration filesystem: `demo.txt` holds the text "hi",
every other path is absent. -/
def demoFS : FileSystem := fun p =>
  if p = "demo.txt" then ReadOutcome.content "hi" else ReadOutcome.notFound

/-- A concrete merge table under which no adjacent pair ever fuses. -/
def demoRank : Nat → Nat → Option Nat := fun _ _ => none

/-- Claim C1: for every invocation with one positional argument naming an
existing UTF-8-readable file, when reading and counting succeed the
program prints exactly two lines — the file path, then the token count
computed by the external tokenizer over the full file contents — and
exits with status 0. -/
theorem main_success_prints_two_lines (tok : Tokenizer) (fs : FileSystem)
    (prog filepath : String) (rest : List String) (content : String) (n : Nat)
    (hread : read_file fs filepath = Except.ok content)
    (hcount : count_tokens tok content = Except.ok n) :
    main tok fs (prog :: filepath :: rest) =
      { output := ["File: " ++ filepath, "Number of tokens: " ++ toString n],
        exitCode := 0, uncaughtException := false } := by
  simp [main, hread, hcount]

/-- Witness for C1: on the demonstration filesystem, reading `demo.txt`
succeeds with content "hi", counting that content yields 2 tokens, and
the run prints the two lines and exits with status 0. -/
theorem main_success_prints_two_lines_witness :
    main (tiktoken demoRank) demoFS ["count_tokens.py", "demo.txt"] =
      { output := ["File: demo.txt", "Number of tokens: " ++ toString 2],
        exitCode := 0, uncaughtException := false } :=
  main_success_prints_two_lines (tiktoken demoRank) demoFS
    "count_tokens.py" "demo.txt" [] "hi" 2 (by rfl) (by rfl)

/-- Claim C4: for every invocation whose single positional argument names
a path that does not exist, the program prints a file-not-found error
message that references that path and exits with status 1. -/
theorem main_missing_file_error (tok : Tokenizer) (fs : FileSystem)
    (prog filepath : String) (rest : List String)
    (h : fs filepath = ReadOutcome.notFound) :
    main tok fs (prog :: filepath :: rest) =
      { output := ["Error: File not found at \x27" ++ filepath ++ "\x27"],
        exitCode := 1, uncaughtException := false } := by
  simp [main, read_file, h]

/-- Witness for C4: the demonstration filesystem has no `missing.txt`, so
that run prints the file-not-found line naming the path and exits 1. -/
theorem main_missing_file_error_witness :
    main (tiktoken demoRank) demoFS ["count_tokens.py", "missing.txt"] =
      { output := ["Error: File not found at \x27" ++ "missing.txt" ++ "\x27"],
        exitCode := 1, uncaughtException := false } :=
  main_missing_file_error (tiktoken demoRank) demoFS
    "count_tokens.py" "missing.txt" [] (by rfl)

/-- Claim C5: for every path referencing an existing readable file,
`read_file` returns the complete text content of that file decoded as
UTF-8, as a single string. -/
theorem read_file_returns_full_content (fs : FileSystem) (filepath s : String)
    (h : fs filepath = ReadOutcome.content s) :
    read_file fs filepath = Except.ok s := by
  simp [read_file, h]

/-- Witness for C5: reading `demo.txt` on the demonstration filesystem
returns exactly its content "hi". -/
theorem read_file_returns_full_content_witness :
    read_file demoFS "demo.txt" = Except.ok "hi" :=
  read_file_returns_full_content demoFS "demo.txt" "hi" (by rfl)

/-- Claim C6: `count_tokens` applied to the empty string returns 0, for
every merge table the unspecified external tokenizer may carry. -/
theorem count_tokens_empty_is_zero (rank : Nat → Nat → Option Nat) :
    count_tokens (tiktoken rank) "" = Except.ok 0 := rfl

/-- Claim C2: for every invocation, the exit status is 0 exactly when the
invocation succeeds (an argument is present and both reading and
counting succeed), and 1 in every failure case — missing argument,
missing file, or any other error. -/
theorem main_exit_status (tok : Tokenizer) (fs : FileSystem) (argv : List String) :
    ((main tok fs argv).exitCode = 0 ∨ (main tok fs argv).exitCode = 1) ∧
    ((main tok fs argv).exitCode = 0 ↔
      2 ≤ argv.length ∧
      ∃ content n, read_file fs (argv.getD 1 "") = Except.ok content ∧
        count_tokens tok content = Except.ok n) := by
  unfold main
  split
  · rename_i hlt
    simp
    omega
  · rename_i hge
    dsimp only
    split
    · rename_i hread
      refine ⟨Or.inr rfl, ?_⟩
      constructor
      · intro h0
        simp at h0
      · rintro ⟨-, c, n, hr, hc⟩
        rw [hread] at hr
        cases hr
    · rename_i m hread
      refine ⟨Or.inr rfl, ?_⟩
      constructor
      · intro h0
        simp at h0
      · rintro ⟨-, c, n, hr, hc⟩
        rw [hread] at hr
        cases hr
    · rename_i content hread
      split
      · rename_i n hcount
        refine ⟨Or.inl rfl, ?_⟩
        constructor
        · intro _
          exact ⟨by omega, content, n, hread, hcount⟩
        · intro _
          rfl
      · rename_i hcount
        refine ⟨Or.inr rfl, ?_⟩
        constructor
        · intro h0
          simp at h0
        · rintro ⟨-, c, n, hr, hc⟩
          rw [hread] at hr
          cases hr
          rw [hcount] at hc
          cases hc
      · rename_i m hcount
        refine ⟨Or.inr rfl, ?_⟩
        constructor
        · intro h0
          simp at h0
        · rintro ⟨-, c, n, hr, hc⟩
          rw [hread] at hr
          cases hr
          rw [hcount] at hc
          cases hc

/-- Claim C3 counterexample material: invoked with zero positional
arguments, the program does NOT print a usage message.  The usage line
interpolates `sys.argv[1]`, which does not exist, so an uncaught
`IndexError` terminates the process with nothing on standard output
(the status is still 1, from the traceback termination). -/
theorem main_no_args_uncaught_index_error (tok : Tokenizer) (fs : FileSystem) :
    main tok fs ["count_tokens.py"] =
      { output := [], exitCode := 1, uncaughtException := true } := rfl

/-- Claim C7: if the external tokenizer raises any failure, the program
prints one descriptive error line and exits with status 1, with no retry
and no other output. -/
theorem main_tokenizer_failure (tok : Tokenizer) (fs : FileSystem)
    (prog filepath : String) (rest : List String) (content msg : String)
    (hread : read_file fs filepath = Except.ok content)
    (hcount : count_tokens tok content = Except.error (PyError.other msg)) :
    main tok fs (prog :: filepath :: rest) =
      { output := ["An error occurred: " ++ msg],
        exitCode := 1, uncaughtException := false } := by
  simp [main, hread, hcount]

/-- Witness for C7: with a tiktoken installation that does not know the
configured model, counting raises, and the run prints one error line and
exits 1. -/
theorem main_tokenizer_failure_witness :
    main unknownModelTiktoken demoFS ["count_tokens.py", "demo.txt"] =
      { output := ["An error occurred: " ++ "Could not find encoding for model gpt-5"],
        exitCode := 1, uncaughtException := false } :=
  main_tokenizer_failure unknownModelTiktoken demoFS
    "count_tokens.py" "demo.txt" [] "hi" "Could not find encoding for model gpt-5"
    (by rfl) (by rfl)

/-- Claim C8: reading then counting is deterministic — the whole observable
run depends only on the tokenizer and on the read outcome of the named
file, so two invocations on an unchanged file (even from different
program names, extra arguments, or environments differing elsewhere on
disk) produce the same token count. -/
theorem main_deterministic (tok : Tokenizer) (fs1 fs2 : FileSystem)
    (prog1 prog2 filepath : String) (rest1 rest2 : List String)
    (h : fs1 filepath = fs2 filepath) :
    main tok fs1 (prog1 :: filepath :: rest1) =
      main tok fs2 (prog2 :: filepath :: rest2) := by
  have e1 : ¬ (rest1.length + 1 + 1 < 2) := by omega
  have e2 : ¬ (rest2.length + 1 + 1 < 2) := by omega
  simp [main, read_file, h, e1, e2]

/-- Witness for C8: a second filesystem differing from the demonstration
one everywhere except `demo.txt` yields an identical run. -/
theorem main_deterministic_witness :
    main (tiktoken demoRank) demoFS ["count_tokens.py", "demo.txt"] =
      main (tiktoken demoRank)
        (fun p => if p = "demo.txt" then ReadOutcome.content "hi"
                  else ReadOutcome.otherError "changed elsewhere")
        ["./count_tokens.py", "demo.txt", "extra"] :=
  main_deterministic (tiktoken demoRank) demoFS
    (fun p => if p = "demo.txt" then ReadOutcome.content "hi"
              else ReadOutcome.otherError "changed elsewhere")
    "count_tokens.py" "./count_tokens.py" "demo.txt" [] ["extra"] (by rfl)

/-- Claim C9: extra positional arguments are silently ignored — an
invocation with two or more positional arguments behaves exactly as the
invocation with only the first one. -/
theorem main_ignores_extra_args (tok : Tokenizer) (fs : FileSystem)
    (prog a : String) (rest : List String) :
    main tok fs (prog :: a :: rest) = main tok fs [prog, a] := by
  simp [main]

/-- Claim C10: success output is all-or-nothing — whenever a line of the
form "File: ..." occurs in the printed output, the invocation succeeded:
the exit status is 0 and the output is exactly the file-path line
followed by the token-count line, so no failing invocation ever prints a
file-path line before its error message. -/
theorem main_file_line_only_after_success (tok : Tokenizer) (fs : FileSystem)
    (argv : List String) (p : String)
    (hmem : ("File: " ++ p) ∈ (main tok fs argv).output) :
    (main tok fs argv).exitCode = 0 ∧
    ∃ n : Nat, (main tok fs argv).output =
      ["File: " ++ argv.getD 1 "", "Number of tokens: " ++ toString n] := by
  revert hmem
  unfold main
  split
  · intro hmem
    simp at hmem
  · dsimp only
    split
    · intro hmem
      rw [List.mem_singleton] at hmem
      have h2 : (some 'F' : Option Char) = some 'E' :=
        congrArg (fun s => s.data.head?) hmem
      simp at h2
    · intro hmem
      rw [List.mem_singleton] at hmem
      have h2 : (some 'F' : Option Char) = some 'A' :=
        congrArg (fun s => s.data.head?) hmem
      simp at h2
    · split
      · rename_i num_tokens hcount
        intro _
        exact ⟨rfl, num_tokens, rfl⟩
      · intro hmem
        rw [List.mem_singleton] at hmem
        have h2 : (some 'F' : Option Char) = some 'E' :=
          congrArg (fun s => s.data.head?) hmem
        simp at h2
      · intro hmem
        rw [List.mem_singleton] at hmem
        have h2 : (some 'F' : Option Char) = some 'A' :=
          congrArg (fun s => s.data.head?) hmem
        simp at h2

/-- Witness for C10: the successful demonstration run prints the file-path
line, and accordingly exits 0 with exactly the two success lines. -/
theorem main_file_line_only_after_success_witness :
    (main (tiktoken demoRank) demoFS ["count_tokens.py", "demo.txt"]).exitCode = 0 ∧
    ∃ n : Nat, (main (tiktoken demoRank) demoFS ["count_tokens.py", "demo.txt"]).output =
      ["File: " ++ ["count_tokens.py", "demo.txt"].getD 1 "",
       "Number of tokens: " ++ toString n] :=
  main_file_line_only_after_success (tiktoken demoRank) demoFS
    ["count_tokens.py", "demo.txt"] "demo.txt" (by decide)

end CountTokens
